import Mathlib

/-!
Verification of the JupyterHub configuration file
`computing-portal/jupyterhub_config.py` of the ctss_computing_hub repository.

The file is a flat sequence of assignments onto a host-provided configuration
object `c = get_config()`.  We embed it as an ordered list of assignments
applied to a record whose fields start unset (`none`), exactly mirroring the
source order, and prove the spec's claims about the resulting record.
-/

namespace CtssHub

/-- A companion-service descriptor, mirroring one dict entry of
`c.JupyterHub.services` in the source: a `name`, an `admin` flag and a
`command` list of argv strings. -/
structure Service where
  name : String
  admin : Bool
  command : List String
deriving DecidableEq, Repr

/-- The configuration record: exactly the attributes that
`jupyterhub_config.py` assigns.  Each field starts unset (`none`), as the
host's fresh `get_config()` object carries no value for these keys before the
file runs. -/
structure Config where
  ip : Option String := none
  port : Option Nat := none
  authenticator_class : Option String := none
  dummyAuthenticator_password : Option String := none
  spawner_class : Option String := none
  notebook_dir : Option String := none
  default_url : Option String := none
  allowed_users : Option (Finset String) := none
  admin_users : Option (Finset String) := none
  start_timeout : Option Nat := none
  http_timeout : Option Nat := none
  services : Option (List Service) := none
  cookie_secret_file : Option String := none
  db_url : Option String := none
  log_level : Option String := none
deriving DecidableEq

/-- The configuration attributes settable by the file, one constructor per
`c.<Section>.<attr>` key appearing in the source. -/
inductive ConfigKey where
  | jupyterhub_ip
  | jupyterhub_port
  | jupyterhub_authenticator_class
  | dummyAuthenticator_password
  | jupyterhub_spawner_class
  | spawner_notebook_dir
  | spawner_default_url
  | authenticator_allowed_users
  | authenticator_admin_users
  | spawner_start_timeout
  | spawner_http_timeout
  | jupyterhub_services
  | jupyterhub_cookie_secret_file
  | jupyterhub_db_url
  | jupyterhub_log_level
deriving DecidableEq, Repr, Fintype

/-- One assignment statement of the source file: which attribute is written
and the value written to it. -/
inductive Assign where
  | set_ip (v : String)
  | set_port (v : Nat)
  | set_authenticator_class (v : String)
  | set_dummyAuthenticator_password (v : String)
  | set_spawner_class (v : String)
  | set_notebook_dir (v : String)
  | set_default_url (v : String)
  | set_allowed_users (v : Finset String)
  | set_admin_users (v : Finset String)
  | set_start_timeout (v : Nat)
  | set_http_timeout (v : Nat)
  | set_services (v : List Service)
  | set_cookie_secret_file (v : String)
  | set_db_url (v : String)
  | set_log_level (v : String)
deriving DecidableEq

/-- The attribute an assignment writes. -/
def Assign.key : Assign → ConfigKey
  | .set_ip _ => .jupyterhub_ip
  | .set_port _ => .jupyterhub_port
  | .set_authenticator_class _ => .jupyterhub_authenticator_class
  | .set_dummyAuthenticator_password _ => .dummyAuthenticator_password
  | .set_spawner_class _ => .jupyterhub_spawner_class
  | .set_notebook_dir _ => .spawner_notebook_dir
  | .set_default_url _ => .spawner_default_url
  | .set_allowed_users _ => .authenticator_allowed_users
  | .set_admin_users _ => .authenticator_admin_users
  | .set_start_timeout _ => .spawner_start_timeout
  | .set_http_timeout _ => .spawner_http_timeout
  | .set_services _ => .jupyterhub_services
  | .set_cookie_secret_file _ => .jupyterhub_cookie_secret_file
  | .set_db_url _ => .jupyterhub_db_url
  | .set_log_level _ => .jupyterhub_log_level

/-- Execute one assignment on the configuration record. -/
def applyAssign (c : Config) : Assign → Config
  | .set_ip v => { c with ip := some v }
  | .set_port v => { c with port := some v }
  | .set_authenticator_class v => { c with authenticator_class := some v }
  | .set_dummyAuthenticator_password v =>
      { c with dummyAuthenticator_password := some v }
  | .set_spawner_class v => { c with spawner_class := some v }
  | .set_notebook_dir v => { c with notebook_dir := some v }
  | .set_default_url v => { c with default_url := some v }
  | .set_allowed_users v => { c with allowed_users := some v }
  | .set_admin_users v => { c with admin_users := some v }
  | .set_start_timeout v => { c with start_timeout := some v }
  | .set_http_timeout v => { c with http_timeout := some v }
  | .set_services v => { c with services := some v }
  | .set_cookie_secret_file v => { c with cookie_secret_file := some v }
  | .set_db_url v => { c with db_url := some v }
  | .set_log_level v => { c with log_level := some v }

/-- The idle-culler service dict from the source:
`{'name': 'cull-idle', 'admin': True, 'command': ['python3', '-m',
'jupyterhub_idle_culler', '--timeout=1800', '--cull-every=300',
'--max-age=0']}`. -/
def cullIdleService : Service :=
  { name := "cull-idle"
    admin := true
    command :=
      ["python3", "-m", "jupyterhub_idle_culler",
       "--timeout=1800", "--cull-every=300", "--max-age=0"] }

/-- The assignment statements of `jupyterhub_config.py`, in source order. -/
def jupyterhub_config : List Assign :=
  [ .set_ip "0.0.0.0",
    .set_port 8000,
    .set_authenticator_class "jupyterhub.auth.DummyAuthenticator",
    .set_dummyAuthenticator_password "password",
    .set_spawner_class "jupyterhub.spawner.SimpleLocalProcessSpawner",
    .set_notebook_dir "~/notebooks",
    .set_default_url "/lab",
    .set_allowed_users {"student", "teacher", "admin"},
    .set_admin_users {"admin"},
    .set_start_timeout 60,
    .set_http_timeout 30,
    .set_services [cullIdleService],
    .set_cookie_secret_file "/srv/jupyterhub/jupyterhub_cookie_secret",
    .set_db_url "sqlite:////srv/jupyterhub/jupyterhub.sqlite",
    .set_log_level "INFO" ]

/-- The configuration record after the file has run: all assignments applied
in order to the fresh record. -/
def loadConfig : Config :=
  jupyterhub_config.foldl applyAssign {}

/-- Running the file in an environment: the source defines no command-line
parsing and performs no environment-variable read, so executing it under any
`argv` and `env` performs the same assignment sequence on the fresh record. -/
def loadConfigFrom (_argv : List String) (_env : List (String × String)) :
    Config :=
  jupyterhub_config.foldl applyAssign {}

/-- `true` iff every configuration attribute of the record has been set. -/
def allFieldsSet (c : Config) : Bool :=
  c.ip.isSome && c.port.isSome && c.authenticator_class.isSome &&
  c.dummyAuthenticator_password.isSome && c.spawner_class.isSome &&
  c.notebook_dir.isSome && c.default_url.isSome &&
  c.allowed_users.isSome && c.admin_users.isSome &&
  c.start_timeout.isSome && c.http_timeout.isSome && c.services.isSome &&
  c.cookie_secret_file.isSome && c.db_url.isSome && c.log_level.isSome

/-- `true` iff the string `needle` occurs as a contiguous substring of the
character list. -/
def charsContain (needle : List Char) : List Char → Bool
  | [] => needle.isEmpty
  | c :: t => needle.isPrefixOf (c :: t) || charsContain needle t

/-- `true` iff `needle` occurs as a contiguous substring of `hay`. -/
def strContains (hay needle : String) : Bool :=
  charsContain needle.data hay.data

/-- A command-line token is a flag when it starts with a dash. -/
def isFlagToken (s : String) : Bool :=
  match s.data with
  | c :: _ => c = '-'
  | [] => false

end CtssHub

namespace CtssHub

/-- C1: after the configuration file is loaded, the allowed-users set is
exactly `{student, teacher, admin}` (three elements), the admin-users set is
exactly `{admin}` (one element), and `admin` is a member of the allowed-users
set. -/
theorem allowed_and_admin_users_exact :
    loadConfig.allowed_users = some ({"student", "teacher", "admin"} : Finset String) ∧
    (loadConfig.allowed_users.getD ∅).card = 3 ∧
    loadConfig.admin_users = some ({"admin"} : Finset String) ∧
    (loadConfig.admin_users.getD ∅).card = 1 ∧
    "admin" ∈ loadConfig.allowed_users.getD ∅ := by
  decide

/-- C2: the idle-culler companion service's command line contains exactly
four dash-prefixed flags, and the literal values `--timeout=1800`,
`--cull-every=300` and `--max-age=0` are among its tokens. -/
theorem culler_command_flags :
    ∃ cmd : List String,
      (loadConfig.services.getD []).map Service.command = [cmd] ∧
      (cmd.filter isFlagToken).length = 4 ∧
      "--timeout=1800" ∈ cmd ∧
      "--cull-every=300" ∈ cmd ∧
      "--max-age=0" ∈ cmd := by
  refine ⟨cullIdleService.command, ?_⟩
  decide

/-- C3: the network-binding fields of the loaded configuration record are the
all-interfaces bind address `0.0.0.0` and port `8000`. -/
theorem bind_address_and_port :
    loadConfig.ip = some "0.0.0.0" ∧ loadConfig.port = some 8000 := by
  decide

/-- C4: the two timeout fields of the loaded configuration record hold the
specified integer second values: spawn start timeout 60 and HTTP
liveness-check timeout 30. -/
theorem timeout_values :
    loadConfig.start_timeout = some 60 ∧ loadConfig.http_timeout = some 30 := by
  decide

/-- C5: the authenticator selector names the dummy backend, the shared secret
for it is the string `password`, and the selector string mentions no OAuth or
LDAP backend. -/
theorem dummy_authenticator_selected :
    loadConfig.authenticator_class = some "jupyterhub.auth.DummyAuthenticator" ∧
    loadConfig.dummyAuthenticator_password = some "password" ∧
    strContains (loadConfig.authenticator_class.getD "") "OAuth" = false ∧
    strContains (loadConfig.authenticator_class.getD "") "LDAP" = false := by
  decide

/-- C6: the spawner selector names the simple local-process spawner, with
notebook root `~/notebooks` and post-login landing path `/lab`. -/
theorem local_process_spawner_selected :
    loadConfig.spawner_class = some "jupyterhub.spawner.SimpleLocalProcessSpawner" ∧
    loadConfig.notebook_dir = some "~/notebooks" ∧
    loadConfig.default_url = some "/lab" := by
  decide

/-- C7: the cookie secret is placed at the fixed filesystem path
`/srv/jupyterhub/jupyterhub_cookie_secret` and the metadata store at the
fixed SQLite URL `sqlite:////srv/jupyterhub/jupyterhub.sqlite`. -/
theorem persisted_state_paths :
    loadConfig.cookie_secret_file = some "/srv/jupyterhub/jupyterhub_cookie_secret" ∧
    loadConfig.db_url = some "sqlite:////srv/jupyterhub/jupyterhub.sqlite" := by
  decide

/-- C8: every configuration attribute is written by exactly one assignment of
the file, the loaded record is the result of performing the assignments once
in source order, and every attribute of the final record is set. -/
theorem single_assignment_construction :
    (∀ k : ConfigKey, (jupyterhub_config.map Assign.key).count k = 1) ∧
    loadConfig = jupyterhub_config.foldl applyAssign {} ∧
    allFieldsSet loadConfig = true := by
  refine ⟨by decide, rfl, by decide⟩

/-- C9: loading the file is deterministic and input-independent: the record
constructed under any command-line arguments and environment variables equals
the one constructed under any other, and both equal `loadConfig`. -/
theorem load_deterministic (argv₁ argv₂ : List String)
    (env₁ env₂ : List (String × String)) :
    loadConfigFrom argv₁ env₁ = loadConfigFrom argv₂ env₂ ∧
    loadConfigFrom argv₁ env₁ = loadConfig := by
  exact ⟨rfl, rfl⟩

/-- C10: the companion-services sequence of the loaded record contains
exactly one service descriptor, named `cull-idle`, and its `admin` flag is
`true`. -/
theorem single_admin_culler_service :
    ∃ svc : Service,
      loadConfig.services = some [svc] ∧
      svc.name = "cull-idle" ∧
      svc.admin = true := by
  refine ⟨cullIdleService, ?_⟩
  decide

end CtssHub
